import Mathlib

/-!
Verification of the infrastructure bring-up pipeline in `driver/manager.py`
(`InfrastructureManager`).  The pipeline is embedded shallowly: external
command outcomes (exit code, stdout, stderr) are inputs, `sys.exit` and
uncaught Python exceptions are an `Except` result, the process environment
is an association list, and each method of the class becomes a pure
function.  Python string operations used by the code (`in`, `startswith`,
`strip`, `split("=", 1)`, `splitlines`) are modelled on `List Char`.
-/

set_option autoImplicit false

namespace Manager

/-! ## String primitives (Python semantics) -/

/-- `listStartsWith s p` is Python `"".join(s).startswith("".join(p))`. -/
def listStartsWith : List Char → List Char → Bool
  | _, [] => true
  | [], _ :: _ => false
  | a :: as, b :: bs => a == b && listStartsWith as bs

/-- `listContains s t` is Python `t in s` (substring containment). -/
def listContains : List Char → List Char → Bool
  | [], t => t.isEmpty
  | s@(_ :: rest), t => listStartsWith s t || listContains rest t

/-- Python `t in s` on strings. -/
def containsSub (s t : String) : Bool :=
  listContains s.toList t.toList

/-- Python `s.startswith(p)`. -/
def strStartsWith (s p : String) : Bool :=
  listStartsWith s.toList p.toList

/-- Python whitespace for `str.strip()`. -/
def isSpaceChar (c : Char) : Bool :=
  c == ' ' || c == '\t' || c == '\n' || c == '\r' || c == Char.ofNat 11 || c == Char.ofNat 12

/-- Python `s.strip()`. -/
def trimStr (s : String) : String :=
  String.mk (((s.toList.dropWhile isSpaceChar).reverse.dropWhile isSpaceChar).reverse)

/-- Python `s.strip('"')`. -/
def stripQuotes (s : String) : String :=
  String.mk (((s.toList.dropWhile (· == '"')).reverse.dropWhile (· == '"')).reverse)

/-- Split at the first `'='`; `none` when there is no `'='`
(then Python `s.split("=", 1)[1]` raises `IndexError`). -/
def breakAtEq : List Char → Option (List Char × List Char)
  | [] => none
  | c :: rest =>
    if c = '=' then some ([], rest)
    else
      match breakAtEq rest with
      | none => none
      | some (a, b) => some (c :: a, b)

/-- Python `line.split("=", 1)[1].strip().strip('"')`, `none` on `IndexError`. -/
def valueAfterEq (line : String) : Option String :=
  match breakAtEq line.toList with
  | none => none
  | some (_, after) => some (stripQuotes (trimStr (String.mk after)))

def splitLinesAux : List Char → List Char → List String
  | [], acc => [String.mk acc.reverse]
  | c :: rest, acc =>
    if c = '\n' then String.mk acc.reverse :: splitLinesAux rest []
    else splitLinesAux rest (c :: acc)

/-- Python `s.splitlines()` (newline-separated; a trailing newline adds no
empty final line, and `"".splitlines() == []`). -/
def splitlines (s : String) : List String :=
  let parts := splitLinesAux s.toList []
  if parts.getLast? = some "" then parts.dropLast else parts

/-! ## Logging (utils.logger.Logger) -/

inductive Severity where
  | debug | info | warning | error | success | header
deriving DecidableEq

structure LogLine where
  sev : Severity
  msg : String
deriving DecidableEq

/-! ## Process environment (`self.env`, a dict copied from `os.environ`) -/

abbrev EnvMap := List (String × String)

def lookupEnv : EnvMap → String → Option String
  | [], _ => none
  | (k, v) :: rest, key => if k = key then some v else lookupEnv rest key

/-- Python `d[k] = v` on a dict modelled as an association list. -/
def setEnv : EnvMap → String → String → EnvMap
  | [], k, v => [(k, v)]
  | (k0, v0) :: rest, k, v =>
    if k0 = k then (k0, v) :: rest else (k0, v0) :: setEnv rest k v

/-! ## CommandRunner: `InfrastructureManager.runCmd` -/

/-- Outcome of a completed external process. -/
structure CmdResult where
  exitCode : Nat
  stdout : String
  stderr : String
deriving DecidableEq

/-- `runCmd(cmd, capture=capture, ignore_errors=ig)` applied to a command
whose process ran to completion with outcome `res`.  Returns the `Logger`
lines it emits and either the returned string or the `sys.exit` code. -/
def runCmd (cmd : String) (res : CmdResult) (capture ig : Bool) :
    List LogLine × Except Nat String :=
  if res.exitCode = 0 then
    ([⟨.debug, "Exec: " ++ cmd⟩], .ok (if capture then trimStr res.stdout else ""))
  else if ig then
    ([⟨.debug, "Exec: " ++ cmd⟩], .ok "")
  else
    ([⟨.debug, "Exec: " ++ cmd⟩, ⟨.error, "Command failed: " ++ cmd⟩], .error 1)

end Manager

namespace Manager

/-! ## Config (`config.json`, `load_config`) -/

/-- The parsed `ingress` object; each field may be absent from the JSON. -/
structure IngressCfg where
  nspace : Option String
  local_port : Option Nat
  container_port : Option Nat
  service_name : Option String
deriving DecidableEq

/-- A parsed `config.json`: the `ingress` key may itself be absent. -/
structure RawConfig where
  ingress : Option IngressCfg
deriving DecidableEq

/-- How a run can stop abnormally: `sys.exit(code)`, an uncaught `KeyError`
on a missing config key, or another uncaught exception. -/
inductive Abort where
  | exited (code : Nat)
  | keyError (key : String)
  | raised (exc : String)
deriving DecidableEq

/-- `load_config`: exits 1 when the file is missing or `json.load` fails;
otherwise returns the parsed object unchecked (no field validation). -/
def loadConfig (fileExists : Bool) (parsed : Option RawConfig) : Except Nat RawConfig :=
  if fileExists = false then .error 1
  else
    match parsed with
    | none => .error 1
    | some c => .ok c

/-- Python `self.config["ingress"]["namespace"]`. -/
def getNspace (c : RawConfig) : Except Abort String :=
  match c.ingress with
  | none => .error (.keyError "ingress")
  | some i =>
    match i.nspace with
    | none => .error (.keyError "namespace")
    | some v => .ok v

/-- Python `self.config["ingress"]["local_port"]`. -/
def getLocalPort (c : RawConfig) : Except Abort Nat :=
  match c.ingress with
  | none => .error (.keyError "ingress")
  | some i =>
    match i.local_port with
    | none => .error (.keyError "local_port")
    | some v => .ok v

/-- Python `self.config["ingress"]["container_port"]`. -/
def getContainerPort (c : RawConfig) : Except Abort Nat :=
  match c.ingress with
  | none => .error (.keyError "ingress")
  | some i =>
    match i.container_port with
    | none => .error (.keyError "container_port")
    | some v => .ok v

/-- Python `self.config["ingress"]["service_name"]`. -/
def getServiceName (c : RawConfig) : Except Abort String :=
  match c.ingress with
  | none => .error (.keyError "ingress")
  | some i =>
    match i.service_name with
    | none => .error (.keyError "service_name")
    | some v => .ok v

/-! ## LockGuard: `force_unlock_terraform` -/

def lockFilePath : String := "terraform/local/.terraform.tfstate.lock.info"

/-- `force_unlock_terraform`: `lockExists` is whether the lock file is
present, `removeErr` the exception message of `os.remove` (or `none` on
success).  Returns the log lines and whether the lock file still exists
afterwards.  Never exits and never re-raises. -/
def forceUnlockTerraform (lockExists : Bool) (removeErr : Option String) :
    List LogLine × Bool :=
  if lockExists then
    match removeErr with
    | some e =>
      ([⟨.warning, "Found Terraform Lock File: " ++ lockFilePath⟩,
        ⟨.error, "Could not remove lock file: " ++ e⟩], true)
    | none =>
      ([⟨.warning, "Found Terraform Lock File: " ++ lockFilePath⟩,
        ⟨.success, "Removed Lock File. Terraform is now unlocked."⟩], false)
  else ([], false)

/-! ## ResourceReaper: `cleanup_resources` -/

/-- `cleanup_resources`: both deletions run with `ignore_errors=True`; the
namespace lookup `self.config["ingress"]["namespace"]` can raise `KeyError`. -/
def cleanupResources (cfg : RawConfig) (delAll delNs : CmdResult) : Except Abort Unit :=
  match (runCmd "kubectl delete deployments,services,ingress,configmaps --all" delAll true true).2 with
  | .error c => .error (.exited c)
  | .ok _ =>
    match getNspace cfg with
    | .error a => .error a
    | .ok ns =>
      match (runCmd ("kubectl delete namespace " ++ ns) delNs true true).2 with
      | .error c => .error (.exited c)
      | .ok _ => .ok ()

/-! ## ClusterBootstrapper: `check_minikube` -/

/-- The code's running test: `result.returncode == 0 and "Running" in result.stdout`,
negated. -/
def minikubeNotRunning (statusCode : Nat) (statusOut : String) : Bool :=
  !(statusCode == 0 && containsSub statusOut "Running")

structure BootOut where
  startAttempted : Bool
  minikubeIp : String
deriving DecidableEq

/-- `minikube ip` result: `self.minikube_ip`, with the placeholder on any
failure of the retrieval. -/
def ipValue : Option String → String
  | some ip => trimStr ip
  | none => "<minikube-ip>"

/-- `check_minikube`: `statusRaises` is whether `subprocess.run(["minikube",
"status"])` itself raises (e.g. binary absent); `startCode` the exit code of
`minikube start` (only consulted when the not-running branch runs);
`ipRes` the output of `minikube ip` or `none` on any failure. -/
def checkMinikube (statusRaises : Bool) (statusCode : Nat) (statusOut : String)
    (startCode : Nat) (ipRes : Option String) : Except Nat BootOut :=
  if statusRaises then .error 1
  else if minikubeNotRunning statusCode statusOut then
    if startCode = 0 then .ok ⟨true, ipValue ipRes⟩ else .error 1
  else .ok ⟨false, ipValue ipRes⟩

end Manager

namespace Manager

/-! ## EnvironmentBridge: `set_docker_env` -/

/-- One iteration of the parsing loop in `set_docker_env`; `none` models the
`IndexError` raised by `line.split("=", 1)[1]` when a matching line has no
`'='`.  The three prefixes are tested in the code's `if`/`elif` order; any
other line is ignored. -/
def applyLine (env : EnvMap) (line : String) : Option EnvMap :=
  if strStartsWith (trimStr line) "$Env:DOCKER_HOST" then
    (valueAfterEq line).map (fun v => setEnv env "DOCKER_HOST" v)
  else if strStartsWith (trimStr line) "$Env:DOCKER_TLS_VERIFY" then
    (valueAfterEq line).map (fun v => setEnv env "DOCKER_TLS_VERIFY" v)
  else if strStartsWith (trimStr line) "$Env:DOCKER_CERT_PATH" then
    (valueAfterEq line).map (fun v => setEnv env "DOCKER_CERT_PATH" v)
  else some env

/-- The parsing loop over `output.splitlines()`.  The boolean is `false`
when an iteration raised; `self.env` keeps the assignments made before the
raising line (the dict is mutated in place). -/
def applyLines (env : EnvMap) : List String → EnvMap × Bool
  | [] => (env, true)
  | l :: rest =>
    match applyLine env l with
    | none => (env, false)
    | some e => applyLines e rest

/-- `set_docker_env`: `exportOut` is the stdout of
`minikube -p minikube docker-env --shell powershell`, or `none` when that
command fails (`check_output` raises).  The bare `except:` turns both the
command failure and any parse exception into one error log; the method
always returns normally. -/
def setDockerEnv (env : EnvMap) (exportOut : Option String) : List LogLine × EnvMap :=
  match exportOut with
  | none => ([⟨.header, "Step 2: Configuring Docker Environment"⟩,
              ⟨.error, "Failed to configure Docker env"⟩], env)
  | some out =>
    match applyLines env (splitlines out) with
    | (e, true) =>
      ([⟨.header, "Step 2: Configuring Docker Environment"⟩,
        ⟨.info, "Docker pointed to Minikube"⟩], e)
    | (e, false) =>
      ([⟨.header, "Step 2: Configuring Docker Environment"⟩,
        ⟨.error, "Failed to configure Docker env"⟩], e)

/-! ## ImageBuilder: `build_images` -/

/-- `build_images`: one `runCmd` per discovered service, in order, fail-fast
(`ignore_errors` defaulted to `False`).  `bc s` is the exit code of
`docker build` for service `s`. -/
def buildImages (bc : String → Nat) : List String → Except Nat Unit
  | [] => .ok ()
  | s :: rest =>
    match (runCmd ("docker build -t " ++ s ++ "-service:latest ./" ++ s)
            ⟨bc s, "", ""⟩ true false).2 with
    | .error c => .error c
    | .ok _ => buildImages bc rest

/-! ## DeploymentApplier: `deploy_k8s` -/

/-- `deploy_k8s`: `terraform init` then `terraform apply -auto-approve`,
both uncaptured and fail-fast. -/
def deployK8s (initCode applyCode : Nat) : Except Nat Unit :=
  match (runCmd "terraform init" ⟨initCode, "", ""⟩ false false).2 with
  | .error c => .error c
  | .ok _ =>
    match (runCmd "terraform apply -auto-approve" ⟨applyCode, "", ""⟩ false false).2 with
    | .error c => .error c
    | .ok _ => .ok ()

/-! ## HealthPoller: `wait_for_pods` -/

/-- The success predicate of the polling loop, on the (already trimmed)
output of `kubectl get pods`: contains `"Running"`, none of the three
failure keywords, and both workload markers. -/
def podsReady (out : String) : Bool :=
  containsSub out "Running" && !containsSub out "Error" && !containsSub out "CrashLoop" &&
    !containsSub out "ContainerCreating" && containsSub out "backend" && containsSub out "ui"

/-- The `while retries < 40` loop: `q r` is the outcome of the `kubectl get
pods` run at attempt `r` (fail-fast, so a failing query exits the process);
`fuel` is `40 - retries`.  Returns the retry counter at exit and whether
the predicate succeeded. -/
def waitFrom (q : Nat → CmdResult) : Nat → Nat → Except Nat (Nat × Bool)
  | 0, r => .ok (r, false)
  | fuel + 1, r =>
    match (runCmd "kubectl get pods" (q r) true false).2 with
    | .error c => .error c
    | .ok out =>
      if podsReady out then .ok (r, true)
      else waitFrom q fuel (r + 1)

/-- `wait_for_pods`: at most 40 attempts; success logs and returns, and
exhaustion logs a warning and returns normally as well. -/
def waitForPods (q : Nat → CmdResult) : List LogLine × Except Nat (Nat × Bool) :=
  match waitFrom q 40 0 with
  | .error c => ([⟨.header, "Step 6: Health Check"⟩], .error c)
  | .ok (r, true) =>
    ([⟨.header, "Step 6: Health Check"⟩, ⟨.success, "All Pods are RUNNING!"⟩], .ok (r, true))
  | .ok (r, false) =>
    ([⟨.header, "Step 6: Health Check"⟩, ⟨.warning, "Timed out waiting for pods."⟩],
     .ok (r, false))

/-! ## TunnelOpener: `open_tunnel` -/

/-- `open_tunnel`: reads the four config fields (each access can raise
`KeyError`), then runs the blocking `kubectl port-forward`.  A
`KeyboardInterrupt` is caught (graceful exit); a non-zero exit of the
port-forward raises an uncaught `CalledProcessError`.  Returns the argv of
the issued port-forward. -/
def openTunnel (cfg : RawConfig) (interrupted : Bool) (pfCode : Nat) :
    Except Abort (List String) :=
  match getLocalPort cfg with
  | .error a => .error a
  | .ok lp =>
    match getContainerPort cfg with
    | .error a => .error a
    | .ok cp =>
      match getNspace cfg with
      | .error a => .error a
      | .ok ns =>
        match getServiceName cfg with
        | .error a => .error a
        | .ok svc =>
          let cmd := ["kubectl", "port-forward", "-n", ns, "svc/" ++ svc,
                      toString lp ++ ":" ++ toString cp]
          if interrupted then .ok cmd
          else if pfCode = 0 then .ok cmd
          else .error (.raised "CalledProcessError")

end Manager

namespace Manager

/-! ## Orchestrator: `main` (plus `__init__`/`load_config` in `program`) -/

/-- The eight pipeline steps, named as in the spec. -/
inductive Step where
  | unlock | reap | bootstrap | bridge | build | deploy | health | tunnel
deriving DecidableEq

/-- The fixed design-time order of the eight steps. -/
def stepOrder : List Step :=
  [.unlock, .reap, .bootstrap, .bridge, .build, .deploy, .health, .tunnel]

deriving instance DecidableEq for Except

/-- Observable outcome of one run: the steps that began executing (in
order), the final pipeline environment `self.env`, the host process
environment `os.environ` after the run, the way the run ended, and the
argv of the port-forward when the tunnel step issued it. -/
structure RunOut where
  trace : List Step
  env : EnvMap
  host : EnvMap
  result : Except Abort Unit
  tunnelCmd : Option (List String)
deriving DecidableEq

/-- Everything the run reads from the outside world: file-system state,
the host environment, and the outcome of every external command the
pipeline may launch. -/
structure World where
  fileExists : Bool
  parseResult : Option RawConfig
  hostEnv : EnvMap
  services : List String
  lockExists : Bool
  lockRemoveErr : Option String
  delAll : CmdResult
  delNs : CmdResult
  statusRaises : Bool
  statusCode : Nat
  statusOut : String
  startCode : Nat
  ipRes : Option String
  exportOut : Option String
  buildCode : String → Nat
  tfInit : Nat
  tfApply : Nat
  podQuery : Nat → CmdResult
  tunnelInterrupted : Bool
  pfCode : Nat

/-- `InfrastructureManager.main` run against config `cfg`: the eight calls
in source order.  `force_unlock_terraform` never aborts, so `reap` always
begins; `set_docker_env` never aborts, so `build` always begins once
`bridge` ran; `wait_for_pods` aborts only when a poll query fails. -/
def runPipeline (w : World) (cfg : RawConfig) : RunOut :=
  match cleanupResources cfg w.delAll w.delNs with
  | .error a => ⟨[.unlock, .reap], w.hostEnv, w.hostEnv, .error a, none⟩
  | .ok _ =>
    match checkMinikube w.statusRaises w.statusCode w.statusOut w.startCode w.ipRes with
    | .error c =>
      ⟨[.unlock, .reap, .bootstrap], w.hostEnv, w.hostEnv, .error (.exited c), none⟩
    | .ok _ =>
      match buildImages w.buildCode w.services with
      | .error c =>
        ⟨[.unlock, .reap, .bootstrap, .bridge, .build],
         (setDockerEnv w.hostEnv w.exportOut).2, w.hostEnv, .error (.exited c), none⟩
      | .ok _ =>
        match deployK8s w.tfInit w.tfApply with
        | .error c =>
          ⟨[.unlock, .reap, .bootstrap, .bridge, .build, .deploy],
           (setDockerEnv w.hostEnv w.exportOut).2, w.hostEnv, .error (.exited c), none⟩
        | .ok _ =>
          match (waitForPods w.podQuery).2 with
          | .error c =>
            ⟨[.unlock, .reap, .bootstrap, .bridge, .build, .deploy, .health],
             (setDockerEnv w.hostEnv w.exportOut).2, w.hostEnv, .error (.exited c), none⟩
          | .ok _ =>
            match openTunnel cfg w.tunnelInterrupted w.pfCode with
            | .error a =>
              ⟨stepOrder, (setDockerEnv w.hostEnv w.exportOut).2, w.hostEnv, .error a, none⟩
            | .ok cmd =>
              ⟨stepOrder, (setDockerEnv w.hostEnv w.exportOut).2, w.hostEnv, .ok (), some cmd⟩

/-- The whole program: `__init__` (which calls `load_config` and exits on a
missing or unparseable file) followed by `main`. -/
def program (w : World) : RunOut :=
  match loadConfig w.fileExists w.parseResult with
  | .error c => ⟨[], w.hostEnv, w.hostEnv, .error (.exited c), none⟩
  | .ok cfg => runPipeline w cfg

/-! ## Concrete fixtures -/

/-- The end-to-end config of spec §8. -/
def appCfg : RawConfig := ⟨some ⟨some "app", some 8080, some 80, some "ingress-nginx"⟩⟩

/-- A `kubectl get pods` snapshot with all success markers and no failure
keyword. -/
def okSnapshot : String := "backend-abc 1/1 Running\nui-def 1/1 Running"

/-- A snapshot that has every success marker but also `CrashLoopBackOff`. -/
def crashSnapshot : String := "backend-abc 0/1 CrashLoopBackOff\nui-def 1/1 Running"

/-- A standard three-line `docker-env --shell powershell` output. -/
def goodExportOut : String :=
  "$Env:DOCKER_TLS_VERIFY = \"1\"\n$Env:DOCKER_HOST = \"tcp://1.2.3.4:2376\"\n$Env:DOCKER_CERT_PATH = \"/home/u/.minikube/certs\""

/-- A world in which every external command succeeds. -/
def wGood : World :=
  { fileExists := true
    parseResult := some appCfg
    hostEnv := [("PATH", "/usr/bin")]
    services := ["backend", "ui"]
    lockExists := false
    lockRemoveErr := none
    delAll := ⟨0, "", ""⟩
    delNs := ⟨0, "", ""⟩
    statusRaises := false
    statusCode := 0
    statusOut := "minikube\nhost: Running"
    startCode := 0
    ipRes := some "192.168.49.2"
    exportOut := some goodExportOut
    buildCode := fun _ => 0
    tfInit := 0
    tfApply := 0
    podQuery := fun _ => ⟨0, okSnapshot, ""⟩
    tunnelInterrupted := true
    pfCode := 0 }

end Manager

namespace Manager

/-! ## Additional fixtures for the claims -/

/-- A parseable config whose `ingress` object lacks the `namespace` field. -/
def wMissingNs : World :=
  { wGood with parseResult := some ⟨some ⟨none, some 8080, some 80, some "ingress-nginx"⟩⟩ }

/-- A world whose config file is absent. -/
def wNoFile : World := { wGood with fileExists := false }

/-- Export output whose `DOCKER_TLS_VERIFY` line is absent. -/
def missingTlsOut : String :=
  "$Env:DOCKER_HOST = \"tcp://1.2.3.4:2376\"\n$Env:DOCKER_CERT_PATH = \"/home/u/.minikube/certs\""

/-- Export output whose second line matches a known prefix but has no
`'='`, so the parse loop raises after the first assignment was made. -/
def truncatedExportOut : String :=
  "$Env:DOCKER_HOST = \"tcp://5.6.7.8:2376\"\n$Env:DOCKER_TLS_VERIFY"

/-- A world whose pods never converge (every snapshot has a crash loop). -/
def wStuck : World := { wGood with podQuery := fun _ => ⟨0, crashSnapshot, ""⟩ }

end Manager

namespace Manager

/-- The three bridged variables, paired with the line prefix that sets each. -/
def threeVars : List (String × String) :=
  [("DOCKER_HOST", "$Env:DOCKER_HOST"),
   ("DOCKER_TLS_VERIFY", "$Env:DOCKER_TLS_VERIFY"),
   ("DOCKER_CERT_PATH", "$Env:DOCKER_CERT_PATH")]

end Manager

namespace Manager

/-! ## Environment-map lemmas -/

theorem lookup_setEnv_self (m : EnvMap) (k v : String) :
    lookupEnv (setEnv m k v) k = some v := by
  induction m with
  | nil => simp [setEnv, lookupEnv]
  | cons p rest ih =>
    obtain ⟨k0, v0⟩ := p
    by_cases h : k0 = k
    · simp [setEnv, h, lookupEnv]
    · simp [setEnv, h, lookupEnv, ih]

theorem lookup_setEnv_ne (m : EnvMap) (k k' v : String) (h : k' ≠ k) :
    lookupEnv (setEnv m k v) k' = lookupEnv m k' := by
  induction m with
  | nil => simp [setEnv, lookupEnv, Ne.symm h]
  | cons p rest ih =>
    obtain ⟨k0, v0⟩ := p
    by_cases h0 : k0 = k
    · subst h0
      simp [setEnv, lookupEnv, Ne.symm h]
    · by_cases h1 : k0 = k'
      · subst h1
        simp [setEnv, h0, lookupEnv]
      · simp [setEnv, h0, lookupEnv, h1, ih]

theorem lookup_setEnv_isSome (m : EnvMap) (k k' v : String)
    (h : (lookupEnv m k').isSome) : (lookupEnv (setEnv m k v) k').isSome := by
  by_cases hk : k' = k
  · subst hk
    simp [lookup_setEnv_self]
  · rw [lookup_setEnv_ne m k k' v hk]
    exact h

/-! ## Bridge-parsing lemmas -/

theorem applyLine_lookup_other (env e : EnvMap) (l k : String)
    (h1 : k ≠ "DOCKER_HOST") (h2 : k ≠ "DOCKER_TLS_VERIFY") (h3 : k ≠ "DOCKER_CERT_PATH")
    (h : applyLine env l = some e) : lookupEnv e k = lookupEnv env k := by
  unfold applyLine at h
  split_ifs at h
  · cases hv : valueAfterEq l with
    | none => rw [hv] at h; simp at h
    | some v =>
      rw [hv] at h
      simp at h
      subst h
      exact lookup_setEnv_ne env "DOCKER_HOST" k v h1
  · cases hv : valueAfterEq l with
    | none => rw [hv] at h; simp at h
    | some v =>
      rw [hv] at h
      simp at h
      subst h
      exact lookup_setEnv_ne env "DOCKER_TLS_VERIFY" k v h2
  · cases hv : valueAfterEq l with
    | none => rw [hv] at h; simp at h
    | some v =>
      rw [hv] at h
      simp at h
      subst h
      exact lookup_setEnv_ne env "DOCKER_CERT_PATH" k v h3
  · simp at h
    subst h
    rfl

theorem applyLine_isSome (env e : EnvMap) (l k : String)
    (h : applyLine env l = some e) (hs : (lookupEnv env k).isSome) :
    (lookupEnv e k).isSome := by
  unfold applyLine at h
  split_ifs at h <;>
    first
    | (cases hv : valueAfterEq l with
       | none => rw [hv] at h; simp at h
       | some v =>
         rw [hv] at h
         simp at h
         subst h
         exact lookup_setEnv_isSome env _ k v hs)
    | (simp at h; subst h; exact hs)

theorem applyLines_lookup_other (k : String)
    (h1 : k ≠ "DOCKER_HOST") (h2 : k ≠ "DOCKER_TLS_VERIFY") (h3 : k ≠ "DOCKER_CERT_PATH") :
    ∀ (ls : List String) (env : EnvMap),
      lookupEnv (applyLines env ls).1 k = lookupEnv env k := by
  intro ls
  induction ls with
  | nil => intro env; rfl
  | cons l rest ih =>
    intro env
    unfold applyLines
    cases hl : applyLine env l with
    | none => simp
    | some e =>
      simp only []
      rw [ih e, applyLine_lookup_other env e l k h1 h2 h3 hl]

theorem applyLines_isSome (k : String) :
    ∀ (ls : List String) (env : EnvMap), (lookupEnv env k).isSome →
      (lookupEnv (applyLines env ls).1 k).isSome := by
  intro ls
  induction ls with
  | nil => intro env hs; exact hs
  | cons l rest ih =>
    intro env hs
    unfold applyLines
    cases hl : applyLine env l with
    | none => simpa using hs
    | some e =>
      simp only []
      exact ih e (applyLine_isSome env e l k hl hs)

theorem setDockerEnv_snd (env : EnvMap) (out : String) :
    (setDockerEnv env (some out)).2 = (applyLines env (splitlines out)).1 := by
  unfold setDockerEnv
  rcases h : applyLines env (splitlines out) with ⟨e, b⟩
  cases b <;> simp [h]

theorem setDockerEnv_lookup_other (env : EnvMap) (out? : Option String) (k : String)
    (h1 : k ≠ "DOCKER_HOST") (h2 : k ≠ "DOCKER_TLS_VERIFY") (h3 : k ≠ "DOCKER_CERT_PATH") :
    lookupEnv (setDockerEnv env out?).2 k = lookupEnv env k := by
  cases out? with
  | none => rfl
  | some out =>
    rw [setDockerEnv_snd]
    exact applyLines_lookup_other k h1 h2 h3 (splitlines out) env

theorem setDockerEnv_isSome (env : EnvMap) (out? : Option String) (k : String)
    (hs : (lookupEnv env k).isSome) :
    (lookupEnv (setDockerEnv env out?).2 k).isSome := by
  cases out? with
  | none => exact hs
  | some out =>
    rw [setDockerEnv_snd]
    exact applyLines_isSome k (splitlines out) env hs

end Manager

namespace Manager

/-! ## Prefix-absence preservation (for the bridge) -/

theorem applyLine_preserve_host (env e : EnvMap) (l : String)
    (hp : strStartsWith (trimStr l) "$Env:DOCKER_HOST" = false)
    (h : applyLine env l = some e) :
    lookupEnv e "DOCKER_HOST" = lookupEnv env "DOCKER_HOST" := by
  unfold applyLine at h
  split_ifs at h with hc1 hc2 hc3
  · simp [hp] at hc1
  · cases hv : valueAfterEq l with
    | none => rw [hv] at h; simp at h
    | some v =>
      rw [hv] at h
      simp at h
      subst h
      exact lookup_setEnv_ne env "DOCKER_TLS_VERIFY" "DOCKER_HOST" v (by decide)
  · cases hv : valueAfterEq l with
    | none => rw [hv] at h; simp at h
    | some v =>
      rw [hv] at h
      simp at h
      subst h
      exact lookup_setEnv_ne env "DOCKER_CERT_PATH" "DOCKER_HOST" v (by decide)
  · simp at h
    subst h
    rfl

theorem applyLine_preserve_tls (env e : EnvMap) (l : String)
    (hp : strStartsWith (trimStr l) "$Env:DOCKER_TLS_VERIFY" = false)
    (h : applyLine env l = some e) :
    lookupEnv e "DOCKER_TLS_VERIFY" = lookupEnv env "DOCKER_TLS_VERIFY" := by
  unfold applyLine at h
  split_ifs at h with hc1 hc2 hc3
  · cases hv : valueAfterEq l with
    | none => rw [hv] at h; simp at h
    | some v =>
      rw [hv] at h
      simp at h
      subst h
      exact lookup_setEnv_ne env "DOCKER_HOST" "DOCKER_TLS_VERIFY" v (by decide)
  · simp [hp] at hc2
  · cases hv : valueAfterEq l with
    | none => rw [hv] at h; simp at h
    | some v =>
      rw [hv] at h
      simp at h
      subst h
      exact lookup_setEnv_ne env "DOCKER_CERT_PATH" "DOCKER_TLS_VERIFY" v (by decide)
  · simp at h
    subst h
    rfl

theorem applyLine_preserve_cert (env e : EnvMap) (l : String)
    (hp : strStartsWith (trimStr l) "$Env:DOCKER_CERT_PATH" = false)
    (h : applyLine env l = some e) :
    lookupEnv e "DOCKER_CERT_PATH" = lookupEnv env "DOCKER_CERT_PATH" := by
  unfold applyLine at h
  split_ifs at h with hc1 hc2 hc3
  · cases hv : valueAfterEq l with
    | none => rw [hv] at h; simp at h
    | some v =>
      rw [hv] at h
      simp at h
      subst h
      exact lookup_setEnv_ne env "DOCKER_HOST" "DOCKER_CERT_PATH" v (by decide)
  · cases hv : valueAfterEq l with
    | none => rw [hv] at h; simp at h
    | some v =>
      rw [hv] at h
      simp at h
      subst h
      exact lookup_setEnv_ne env "DOCKER_TLS_VERIFY" "DOCKER_CERT_PATH" v (by decide)
  · simp [hp] at hc3
  · simp at h
    subst h
    rfl

theorem applyLine_preserve_key (env e : EnvMap) (l k p : String)
    (hkp : (k, p) ∈ threeVars)
    (hp : strStartsWith (trimStr l) p = false)
    (h : applyLine env l = some e) :
    lookupEnv e k = lookupEnv env k := by
  simp [threeVars] at hkp
  rcases hkp with ⟨hk, hpp⟩ | ⟨hk, hpp⟩ | ⟨hk, hpp⟩ <;> subst hk <;> subst hpp
  · exact applyLine_preserve_host env e l hp h
  · exact applyLine_preserve_tls env e l hp h
  · exact applyLine_preserve_cert env e l hp h

theorem applyLines_preserve_key (k p : String) (hkp : (k, p) ∈ threeVars) :
    ∀ (ls : List String), (∀ l ∈ ls, strStartsWith (trimStr l) p = false) →
      ∀ env : EnvMap, lookupEnv (applyLines env ls).1 k = lookupEnv env k := by
  intro ls
  induction ls with
  | nil => intro _ env; rfl
  | cons l rest ih =>
    intro hall env
    unfold applyLines
    cases hl : applyLine env l with
    | none => simp
    | some e =>
      simp only []
      rw [ih (fun x hx => hall x (List.mem_cons_of_mem l hx)) e,
        applyLine_preserve_key env e l k p hkp (hall l (List.mem_cons_self l rest)) hl]

theorem setDockerEnv_preserve_key (env : EnvMap) (out : String) (k p : String)
    (hkp : (k, p) ∈ threeVars)
    (hall : ∀ l ∈ splitlines out, strStartsWith (trimStr l) p = false) :
    lookupEnv (setDockerEnv env (some out)).2 k = lookupEnv env k := by
  rw [setDockerEnv_snd]
  exact applyLines_preserve_key k p hkp (splitlines out) hall env

end Manager

namespace Manager

/-! ## Command and step lemmas -/

theorem runCmd_capture_ok (cmd : String) (res : CmdResult) (h : res.exitCode = 0) :
    (runCmd cmd res true false).2 = .ok (trimStr res.stdout) := by
  unfold runCmd
  simp [h]

theorem runCmd_ignore_isOk (cmd : String) (res : CmdResult) (cap : Bool) :
    ∃ s, (runCmd cmd res cap true).2 = .ok s := by
  unfold runCmd
  by_cases h : res.exitCode = 0 <;> simp [h]

theorem cleanupResources_ok (cfg : RawConfig) (ns : String) (h : getNspace cfg = .ok ns)
    (d1 d2 : CmdResult) : cleanupResources cfg d1 d2 = .ok () := by
  unfold cleanupResources
  obtain ⟨s1, h1⟩ :=
    runCmd_ignore_isOk "kubectl delete deployments,services,ingress,configmaps --all" d1 true
  obtain ⟨s2, h2⟩ := runCmd_ignore_isOk ("kubectl delete namespace " ++ ns) d2 true
  simp [h1, h, h2]

theorem waitFrom_timeout (q : Nat → CmdResult) :
    ∀ (fuel r : Nat),
      (∀ i, r ≤ i → i < r + fuel →
        (q i).exitCode = 0 ∧ podsReady (trimStr (q i).stdout) = false) →
      waitFrom q fuel r = .ok (r + fuel, false) := by
  intro fuel
  induction fuel with
  | zero => intro r _; simp [waitFrom]
  | succ f ih =>
    intro r h
    have hr := h r (Nat.le_refl r) (by omega)
    have h2 := ih (r + 1) (fun i hi1 hi2 => h i (by omega) (by omega))
    have harith : r + 1 + f = r + (f + 1) := by omega
    rw [harith] at h2
    unfold waitFrom
    rw [runCmd_capture_ok _ _ hr.1]
    simp [hr.2, h2]

theorem waitFrom_success (q : Nat → CmdResult) :
    ∀ (fuel r k : Nat), r ≤ k → k < r + fuel →
      (∀ i, r ≤ i → i < k →
        (q i).exitCode = 0 ∧ podsReady (trimStr (q i).stdout) = false) →
      (q k).exitCode = 0 → podsReady (trimStr (q k).stdout) = true →
      waitFrom q fuel r = .ok (k, true) := by
  intro fuel
  induction fuel with
  | zero => intro r k h1 h2 _ _ _; omega
  | succ f ih =>
    intro r k h1 h2 h3 h4 h5
    by_cases hk : r = k
    · subst hk
      unfold waitFrom
      rw [runCmd_capture_ok _ _ h4]
      simp [h5]
    · have hq := h3 r (Nat.le_refl r) (by omega)
      unfold waitFrom
      rw [runCmd_capture_ok _ _ hq.1]
      simp [hq.2]
      exact ih (r + 1) k (by omega) (by omega) (fun i hi1 hi2 => h3 i (by omega) hi2) h4 h5

theorem waitForPods_timeout (q : Nat → CmdResult)
    (h : ∀ i, i < 40 → (q i).exitCode = 0 ∧ podsReady (trimStr (q i).stdout) = false) :
    waitForPods q =
      ([⟨.header, "Step 6: Health Check"⟩, ⟨.warning, "Timed out waiting for pods."⟩],
       .ok (40, false)) := by
  have h40 := waitFrom_timeout q 40 0 (fun i _ hi2 => h i (by omega))
  have hz : (0 : Nat) + 40 = 40 := rfl
  rw [hz] at h40
  unfold waitForPods
  rw [h40]

theorem waitForPods_success (q : Nat → CmdResult) (k : Nat) (hk : k < 40)
    (hprev : ∀ i, i < k → (q i).exitCode = 0 ∧ podsReady (trimStr (q i).stdout) = false)
    (hq : (q k).exitCode = 0) (hr : podsReady (trimStr (q k).stdout) = true) :
    waitForPods q =
      ([⟨.header, "Step 6: Health Check"⟩, ⟨.success, "All Pods are RUNNING!"⟩],
       .ok (k, true)) := by
  have hs := waitFrom_success q 40 0 k (Nat.zero_le k) (by omega)
    (fun i _ hi2 => hprev i hi2) hq hr
  unfold waitForPods
  rw [hs]

/-! ## Pipeline structural lemmas -/

theorem runPipeline_host (w : World) (cfg : RawConfig) :
    (runPipeline w cfg).host = w.hostEnv := by
  unfold runPipeline
  repeat' split
  all_goals rfl

theorem runPipeline_env_cases (w : World) (cfg : RawConfig) :
    (runPipeline w cfg).env = w.hostEnv ∨
      (runPipeline w cfg).env = (setDockerEnv w.hostEnv w.exportOut).2 := by
  unfold runPipeline
  repeat' split
  all_goals simp

theorem unlock_reap_in_trace (w : World) (cfg : RawConfig) :
    Step.unlock ∈ (runPipeline w cfg).trace ∧ Step.reap ∈ (runPipeline w cfg).trace := by
  unfold runPipeline
  repeat' split
  all_goals simp [stepOrder]

theorem bridge_then_build (w : World) (cfg : RawConfig) :
    Step.bridge ∈ (runPipeline w cfg).trace → Step.build ∈ (runPipeline w cfg).trace := by
  unfold runPipeline
  repeat' split
  all_goals intro h
  all_goals simp_all [stepOrder]

theorem runPipeline_trace_take (w : World) (cfg : RawConfig) :
    (runPipeline w cfg).trace = stepOrder.take (runPipeline w cfg).trace.length := by
  unfold runPipeline
  repeat' split
  all_goals rfl

end Manager

namespace Manager

/-! ## Inversion and reachability lemmas -/

theorem loadConfig_missing (fe : Bool) (p : Option RawConfig)
    (h : fe = false ∨ p = none) : loadConfig fe p = .error 1 := by
  unfold loadConfig
  rcases h with h | h
  · simp [h]
  · subst h
    cases fe <;> simp

theorem runPipeline_ok_inv (w : World) (cfg : RawConfig)
    (h : (runPipeline w cfg).result = .ok ()) :
    (runPipeline w cfg).trace = stepOrder ∧
      ∃ L, openTunnel cfg w.tunnelInterrupted w.pfCode = .ok L ∧
        (runPipeline w cfg).tunnelCmd = some L := by
  unfold runPipeline at h ⊢
  cases h1 : cleanupResources cfg w.delAll w.delNs with
  | error a => simp [h1] at h
  | ok u =>
    simp only [h1] at h ⊢
    cases h2 : checkMinikube w.statusRaises w.statusCode w.statusOut w.startCode w.ipRes with
    | error c => simp [h2] at h
    | ok b =>
      simp only [h2] at h ⊢
      cases h3 : buildImages w.buildCode w.services with
      | error c => simp [h3] at h
      | ok u3 =>
        simp only [h3] at h ⊢
        cases h4 : deployK8s w.tfInit w.tfApply with
        | error c => simp [h4] at h
        | ok u4 =>
          simp only [h4] at h ⊢
          cases h5 : (waitForPods w.podQuery).2 with
          | error c => simp [h5] at h
          | ok p5 =>
            simp only [h5] at h ⊢
            cases h6 : openTunnel cfg w.tunnelInterrupted w.pfCode with
            | error a => simp [h6] at h
            | ok L => exact ⟨rfl, L, rfl, rfl⟩

theorem openTunnel_appCfg (i : Bool) (c : Nat) (L : List String)
    (h : openTunnel appCfg i c = .ok L) :
    L = ["kubectl", "port-forward", "-n", "app", "svc/ingress-nginx", "8080:80"] := by
  have e1 : getLocalPort appCfg = .ok 8080 := rfl
  have e2 : getContainerPort appCfg = .ok 80 := rfl
  have e3 : getNspace appCfg = .ok "app" := rfl
  have e4 : getServiceName appCfg = .ok "ingress-nginx" := rfl
  unfold openTunnel at h
  simp only [e1, e2, e3, e4] at h
  split_ifs at h
  · injection h with h'
    rw [← h']
    decide
  · injection h with h'
    rw [← h']
    decide

theorem pipeline_reaches_tunnel (w : World) (cfg : RawConfig) (ns : String)
    (hns : getNspace cfg = .ok ns)
    (hboot : ∃ b, checkMinikube w.statusRaises w.statusCode w.statusOut w.startCode w.ipRes = .ok b)
    (hbuild : buildImages w.buildCode w.services = .ok ())
    (hdeploy : deployK8s w.tfInit w.tfApply = .ok ())
    (hpods : ∀ i, i < 40 →
      (w.podQuery i).exitCode = 0 ∧ podsReady (trimStr (w.podQuery i).stdout) = false) :
    (runPipeline w cfg).trace = stepOrder := by
  obtain ⟨b, hb⟩ := hboot
  have hw := waitForPods_timeout w.podQuery hpods
  have hw2 : (waitForPods w.podQuery).2 = .ok (40, false) := by rw [hw]
  unfold runPipeline
  simp only [cleanupResources_ok cfg ns hns w.delAll w.delNs, hb, hbuild, hdeploy, hw2]
  cases h6 : openTunnel cfg w.tunnelInterrupted w.pfCode <;> simp [h6]

theorem pipeline_boot_raises (w : World) (h : w.statusRaises = true) :
    (runPipeline w appCfg).result = .error (.exited 1) := by
  have hmk : checkMinikube w.statusRaises w.statusCode w.statusOut w.startCode w.ipRes =
      .error 1 := by
    unfold checkMinikube
    simp [h]
  unfold runPipeline
  simp only [cleanupResources_ok appCfg "app" rfl w.delAll w.delNs, hmk]

end Manager


namespace Manager

/-! ## Claims -/

/-- C1 counterexample: with the config file present and parseable but the
`namespace` field absent, the run does NOT abort before the first pipeline
step — the unlock step executes and the reap step begins, and only then
does the run die with an uncaught `KeyError` on `"namespace"`. -/
theorem config_fields_counterexample :
    (program wMissingNs).trace = [Step.unlock, Step.reap] ∧
    (program wMissingNs).result = .error (.keyError "namespace") := by
  decide

/-- C1 (amended): a missing config file or a parse failure aborts with exit
code 1 before any pipeline step executes; but required fields are not
validated at load time — with the file present and parseable the run
proceeds to step one whatever fields are present, and a missing field only
aborts later, at its first access. -/
theorem load_config_gate (w : World) :
    (w.fileExists = false →
      (program w).trace = [] ∧ (program w).result = .error (.exited 1)) ∧
    (w.parseResult = none →
      (program w).trace = [] ∧ (program w).result = .error (.exited 1)) ∧
    (∀ c, w.parseResult = some c → w.fileExists = true →
      Step.unlock ∈ (program w).trace) := by
  refine ⟨?_, ?_, ?_⟩
  · intro h
    unfold program
    simp [loadConfig_missing w.fileExists w.parseResult (Or.inl h)]
  · intro h
    unfold program
    simp [loadConfig_missing w.fileExists w.parseResult (Or.inr h)]
  · intro c hc hf
    have hl : loadConfig w.fileExists w.parseResult = .ok c := by
      unfold loadConfig
      rw [hf, hc]
      rfl
    unfold program
    simp only [hl]
    exact (unlock_reap_in_trace w c).1

theorem load_config_gate_witness :
    ((program wNoFile).trace = [] ∧ (program wNoFile).result = .error (.exited 1)) ∧
    Step.unlock ∈ (program wGood).trace :=
  ⟨(load_config_gate wNoFile).1 rfl, (load_config_gate wGood).2.2 appCfg rfl rfl⟩

/-- C2: the runner exits the process exactly when the command exits
non-zero and the call is fail-fast; a best-effort call returns an empty
result on failure; a fail-fast failure exits with code 1 after exactly one
error-severity log line naming the failing command. -/
theorem runCmd_policy (cmd : String) (res : CmdResult) (cap ig : Bool) :
    ((∃ c, (runCmd cmd res cap ig).2 = .error c) ↔ res.exitCode ≠ 0 ∧ ig = false) ∧
    (res.exitCode ≠ 0 → ig = true → (runCmd cmd res cap ig).2 = .ok "") ∧
    (res.exitCode ≠ 0 → ig = false →
      (runCmd cmd res cap ig).2 = .error 1 ∧
      (runCmd cmd res cap ig).1.filter (fun l => l.sev == Severity.error) =
        [⟨Severity.error, "Command failed: " ++ cmd⟩]) := by
  unfold runCmd
  by_cases h : res.exitCode = 0 <;> cases ig <;>
    simp [h, show (Severity.debug == Severity.error) = false from rfl,
      show (Severity.error == Severity.error) = true from rfl]

theorem runCmd_policy_witness :
    (runCmd "kubectl get pods" ⟨2, "", "boom"⟩ true true).2 = .ok "" ∧
    ((runCmd "kubectl get pods" ⟨2, "", "boom"⟩ true false).2 = .error 1 ∧
      (runCmd "kubectl get pods" ⟨2, "", "boom"⟩ true false).1.filter
          (fun l => l.sev == Severity.error) =
        [⟨Severity.error, "Command failed: kubectl get pods"⟩]) :=
  ⟨(runCmd_policy "kubectl get pods" ⟨2, "", "boom"⟩ true true).2.1 (by decide) rfl,
   (runCmd_policy "kubectl get pods" ⟨2, "", "boom"⟩ true false).2.2 (by decide) rfl⟩

end Manager

namespace Manager

/-- C3: the poll returns at the first snapshot satisfying the predicate;
the predicate accepts a snapshot with `Running`, `backend`, `ui` and no
failure keyword, and rejects one containing `CrashLoopBackOff` even with
all success markers present; if no snapshot ever satisfies it the loop
stops after exactly 40 attempts, logs a warning, and returns normally, so
the pipeline still reaches the tunnel step. -/
theorem health_poll_spec :
    (∀ (q : Nat → CmdResult) (k : Nat), k < 40 →
      (∀ i, i < k → (q i).exitCode = 0 ∧ podsReady (trimStr (q i).stdout) = false) →
      (q k).exitCode = 0 → podsReady (trimStr (q k).stdout) = true →
      (waitForPods q).2 = .ok (k, true)) ∧
    (∀ q : Nat → CmdResult,
      (∀ i, i < 40 → (q i).exitCode = 0 ∧ podsReady (trimStr (q i).stdout) = false) →
      waitForPods q =
        ([⟨.header, "Step 6: Health Check"⟩, ⟨.warning, "Timed out waiting for pods."⟩],
         .ok (40, false))) ∧
    podsReady okSnapshot = true ∧
    (containsSub crashSnapshot "Running" = true ∧ containsSub crashSnapshot "backend" = true ∧
      containsSub crashSnapshot "ui" = true ∧
      containsSub crashSnapshot "CrashLoopBackOff" = true ∧
      podsReady crashSnapshot = false) ∧
    (∀ (w : World) (cfg : RawConfig) (ns : String), getNspace cfg = .ok ns →
      (∃ b, checkMinikube w.statusRaises w.statusCode w.statusOut w.startCode w.ipRes = .ok b) →
      buildImages w.buildCode w.services = .ok () →
      deployK8s w.tfInit w.tfApply = .ok () →
      (∀ i, i < 40 →
        (w.podQuery i).exitCode = 0 ∧ podsReady (trimStr (w.podQuery i).stdout) = false) →
      Step.tunnel ∈ (runPipeline w cfg).trace) := by
  refine ⟨?_, waitForPods_timeout, by decide, by decide, ?_⟩
  · intro q k hk hprev hq hr
    rw [waitForPods_success q k hk hprev hq hr]
  · intro w cfg ns hns hboot hbuild hdeploy hpods
    rw [pipeline_reaches_tunnel w cfg ns hns hboot hbuild hdeploy hpods]
    decide

theorem health_poll_spec_witness :
    (waitForPods (fun r => if r < 2 then ⟨0, crashSnapshot, ""⟩ else ⟨0, okSnapshot, ""⟩)).2 =
      .ok (2, true) ∧
    waitForPods (fun _ => ⟨0, crashSnapshot, ""⟩) =
      ([⟨.header, "Step 6: Health Check"⟩, ⟨.warning, "Timed out waiting for pods."⟩],
       .ok (40, false)) ∧
    Step.tunnel ∈ (runPipeline wStuck appCfg).trace :=
  ⟨health_poll_spec.1 (fun r => if r < 2 then ⟨0, crashSnapshot, ""⟩ else ⟨0, okSnapshot, ""⟩)
      2 (by decide) (by decide) (by decide) (by decide),
   health_poll_spec.2.1 (fun _ => ⟨0, crashSnapshot, ""⟩) (by decide),
   health_poll_spec.2.2.2.2 wStuck appCfg "app" rfl ⟨⟨false, "192.168.49.2"⟩, rfl⟩ rfl rfl
     (by decide)⟩

/-- C4: for the standard export output, whose `DOCKER_HOST` line carries
the value `"tcp://1.2.3.4:2376"`, the bridged map's `DOCKER_HOST` entry is
that value with the quotes stripped; and for every output in which the
assignment line of one of the three variables is absent, that key keeps
its prior binding (in particular it stays unset, not empty). -/
theorem bridge_line_parsing :
    containsSub goodExportOut "DOCKER_HOST = \"tcp://1.2.3.4:2376\"" = true ∧
    lookupEnv (setDockerEnv [("PATH", "/usr/bin")] (some goodExportOut)).2 "DOCKER_HOST" =
      some "tcp://1.2.3.4:2376" ∧
    (∀ (env : EnvMap) (out : String) (k p : String), (k, p) ∈ threeVars →
      (∀ l ∈ splitlines out, strStartsWith (trimStr l) p = false) →
      lookupEnv (setDockerEnv env (some out)).2 k = lookupEnv env k) := by
  refine ⟨by decide, by decide, ?_⟩
  intro env out k p hkp hall
  exact setDockerEnv_preserve_key env out k p hkp hall

theorem bridge_line_parsing_witness :
    lookupEnv (setDockerEnv [("PATH", "/usr/bin")] (some missingTlsOut)).2 "DOCKER_TLS_VERIFY" =
      lookupEnv [("PATH", "/usr/bin")] "DOCKER_TLS_VERIFY" :=
  bridge_line_parsing.2.2 [("PATH", "/usr/bin")] missingTlsOut "DOCKER_TLS_VERIFY"
    "$Env:DOCKER_TLS_VERIFY" (by decide) (by decide)

/-- C5 counterexample: with export output whose first line assigns
`DOCKER_HOST` and whose second line matches a known prefix but has no
`'='`, the parse raises, the bridge logs the error and returns — but the
environment map is NOT left unchanged: `DOCKER_HOST` was already merged
before the failing line. -/
theorem bridge_failure_counterexample :
    ((setDockerEnv [] (some truncatedExportOut)).1.filter (fun l => l.sev == Severity.error) =
      [⟨Severity.error, "Failed to configure Docker env"⟩]) ∧
    lookupEnv (setDockerEnv [] (some truncatedExportOut)).2 "DOCKER_HOST" =
      some "tcp://5.6.7.8:2376" := by
  decide

/-- C5 (amended): if the export command itself fails, the error is logged
and the environment map is unchanged; if the output is unparseable the
error is logged, but assignments parsed before the failing line persist.
In both cases the method returns normally and the pipeline always
continues from the bridge step to the image-build step. -/
theorem bridge_failure_amended :
    (∀ env : EnvMap,
      setDockerEnv env none =
        ([⟨Severity.header, "Step 2: Configuring Docker Environment"⟩,
          ⟨Severity.error, "Failed to configure Docker env"⟩], env)) ∧
    (∀ (w : World) (cfg : RawConfig),
      Step.bridge ∈ (runPipeline w cfg).trace → Step.build ∈ (runPipeline w cfg).trace) :=
  ⟨fun _ => rfl, bridge_then_build⟩

theorem bridge_failure_amended_witness :
    Step.build ∈ (runPipeline wGood appCfg).trace :=
  bridge_failure_amended.2 wGood appCfg (by decide)

end Manager

namespace Manager

/-- C6: across the whole run, every key other than the three bridged
variables keeps the value it was seeded with from the host process, and no
key is ever deleted (a key with a value before the run still has one
after). -/
theorem env_monotonicity (w : World) (k : String) :
    (k ≠ "DOCKER_HOST" → k ≠ "DOCKER_TLS_VERIFY" → k ≠ "DOCKER_CERT_PATH" →
      lookupEnv (program w).env k = lookupEnv w.hostEnv k) ∧
    ((lookupEnv w.hostEnv k).isSome → (lookupEnv (program w).env k).isSome) := by
  have hcases : (program w).env = w.hostEnv ∨
      (program w).env = (setDockerEnv w.hostEnv w.exportOut).2 := by
    unfold program
    cases h : loadConfig w.fileExists w.parseResult with
    | error c => exact Or.inl rfl
    | ok cfg => exact runPipeline_env_cases w cfg
  constructor
  · intro h1 h2 h3
    rcases hcases with hc | hc <;> rw [hc]
    exact setDockerEnv_lookup_other w.hostEnv w.exportOut k h1 h2 h3
  · intro hs
    rcases hcases with hc | hc <;> rw [hc]
    · exact hs
    · exact setDockerEnv_isSome w.hostEnv w.exportOut k hs

theorem env_monotonicity_witness :
    lookupEnv (program wGood).env "PATH" = lookupEnv wGood.hostEnv "PATH" ∧
    (lookupEnv (program wGood).env "PATH").isSome :=
  ⟨(env_monotonicity wGood "PATH").1 (by decide) (by decide) (by decide),
   (env_monotonicity wGood "PATH").2 (by decide)⟩

/-- C7: in every run the executed steps are an initial segment of the
fixed order unlock, reap, bootstrap, bridge, build, deploy, health,
tunnel; a run that completes executed all eight in that order; and a
completed run under the §8 config issues a port-forward with argv
`kubectl port-forward -n app svc/ingress-nginx 8080:80`. -/
theorem pipeline_fixed_order :
    (∀ (w : World) (cfg : RawConfig),
      (runPipeline w cfg).trace = stepOrder.take (runPipeline w cfg).trace.length) ∧
    (∀ (w : World) (cfg : RawConfig), (runPipeline w cfg).result = .ok () →
      (runPipeline w cfg).trace = stepOrder) ∧
    (∀ w : World, (runPipeline w appCfg).result = .ok () →
      (runPipeline w appCfg).tunnelCmd =
        some ["kubectl", "port-forward", "-n", "app", "svc/ingress-nginx", "8080:80"]) := by
  refine ⟨runPipeline_trace_take, ?_, ?_⟩
  · intro w cfg h
    exact (runPipeline_ok_inv w cfg h).1
  · intro w h
    obtain ⟨-, L, hL, hcmd⟩ := runPipeline_ok_inv w appCfg h
    rw [hcmd, openTunnel_appCfg w.tunnelInterrupted w.pfCode L hL]

theorem pipeline_fixed_order_witness :
    (runPipeline wGood appCfg).result = .ok () ∧
    (runPipeline wGood appCfg).trace = stepOrder ∧
    (runPipeline wGood appCfg).tunnelCmd =
      some ["kubectl", "port-forward", "-n", "app", "svc/ingress-nginx", "8080:80"] :=
  ⟨by decide, pipeline_fixed_order.2.1 wGood appCfg (by decide),
   pipeline_fixed_order.2.2 wGood (by decide)⟩

/-- C8 counterexample: when removal of an existing lock file raises, the
failure line `Could not remove lock file: ...` is logged at ERROR
severity, not as a warning — the only warning line is the earlier
`Found Terraform Lock File` notice. -/
theorem lock_log_severity_counterexample :
    ((forceUnlockTerraform true (some "Permission denied")).1.filter
        (fun l => l.sev == Severity.warning) =
      [⟨Severity.warning, "Found Terraform Lock File: " ++ lockFilePath⟩]) ∧
    ((forceUnlockTerraform true (some "Permission denied")).1.filter
        (fun l => l.sev == Severity.error) =
      [⟨Severity.error, "Could not remove lock file: Permission denied"⟩]) := by
  decide

/-- C8 (amended): when the lock file exists, removal is attempted and on
success the file no longer exists afterwards; if removal raises, the
failure is logged at error severity (not warning), nothing is re-raised,
and the run still proceeds to the reap step. -/
theorem lock_guard_behavior (lockExists : Bool) (removeErr : Option String) :
    (lockExists = true → removeErr = none →
      (forceUnlockTerraform lockExists removeErr).2 = false) ∧
    (∀ e, removeErr = some e → lockExists = true →
      (forceUnlockTerraform lockExists removeErr).1.filter
          (fun l => l.sev == Severity.error) =
        [⟨Severity.error, "Could not remove lock file: " ++ e⟩]) ∧
    (∀ (w : World) (cfg : RawConfig), Step.reap ∈ (runPipeline w cfg).trace) := by
  refine ⟨?_, ?_, fun w cfg => (unlock_reap_in_trace w cfg).2⟩
  · intro h1 h2
    subst h1
    subst h2
    rfl
  · intro e he hl
    subst he
    subst hl
    simp [forceUnlockTerraform, show (Severity.warning == Severity.error) = false from rfl,
      show (Severity.error == Severity.error) = true from rfl]

theorem lock_guard_behavior_witness :
    (forceUnlockTerraform true none).2 = false ∧
    (forceUnlockTerraform true (some "EPERM")).1.filter (fun l => l.sev == Severity.error) =
      [⟨Severity.error, "Could not remove lock file: EPERM"⟩] ∧
    Step.reap ∈ (runPipeline wGood appCfg).trace :=
  ⟨(lock_guard_behavior true none).1 rfl rfl,
   (lock_guard_behavior true (some "EPERM")).2.1 "EPERM" rfl rfl,
   (lock_guard_behavior true none).2.2 wGood appCfg⟩

/-- C9: the pipeline environment is a copy of the host environment taken
at startup: after any run the host map `os.environ` is unchanged, while
the bridged variable is visible in the pipeline's own map only. -/
theorem host_env_frame :
    (∀ w : World, (program w).host = w.hostEnv) ∧
    lookupEnv (program wGood).env "DOCKER_HOST" = some "tcp://1.2.3.4:2376" ∧
    lookupEnv (program wGood).host "DOCKER_HOST" = none := by
  refine ⟨?_, by decide, by decide⟩
  intro w
  unfold program
  cases h : loadConfig w.fileExists w.parseResult with
  | error c => rfl
  | ok cfg => exact runPipeline_host w cfg

/-- C10: in the bootstrap step only the address retrieval is best-effort:
a raising status query, or a failing start command, exits the process with
code 1; a failed address query only yields the placeholder; and the
not-running classification is (status exit code non-zero OR `Running`
absent from stdout), not the marker alone. -/
theorem minikube_bootstrap_policy (sr : Bool) (sc : Nat) (so : String) (stc : Nat)
    (ip : Option String) :
    (sr = true → checkMinikube sr sc so stc ip = .error 1) ∧
    (sr = false → minikubeNotRunning sc so = true → stc ≠ 0 →
      checkMinikube sr sc so stc ip = .error 1) ∧
    (sr = false → minikubeNotRunning sc so = true → stc = 0 →
      checkMinikube sr sc so stc ip = .ok ⟨true, ipValue ip⟩) ∧
    (sr = false → minikubeNotRunning sc so = false →
      checkMinikube sr sc so stc ip = .ok ⟨false, ipValue ip⟩) ∧
    (minikubeNotRunning sc so = true ↔ (sc ≠ 0 ∨ containsSub so "Running" = false)) ∧
    (∀ w : World, w.statusRaises = true → (runPipeline w appCfg).result = .error (.exited 1)) := by
  refine ⟨?_, ?_, ?_, ?_, ?_, fun w h => pipeline_boot_raises w h⟩
  · intro h
    subst h
    rfl
  · intro h1 h2 h3
    subst h1
    unfold checkMinikube
    simp [h2, h3]
  · intro h1 h2 h3
    subst h1
    subst h3
    unfold checkMinikube
    simp [h2]
  · intro h1 h2
    subst h1
    unfold checkMinikube
    simp [h2]
  · unfold minikubeNotRunning
    rcases Nat.eq_zero_or_pos sc with hsc | hsc
    · subst hsc
      cases hrun : containsSub so "Running" <;> simp [hrun]
    · have : (sc == 0) = false := by
        simp [Nat.pos_iff_ne_zero.mp hsc]
      simp [this, Nat.pos_iff_ne_zero.mp hsc]

theorem minikube_bootstrap_policy_witness :
    checkMinikube false 1 "host: Running" 2 none = .error 1 ∧
    checkMinikube false 0 "Stopped" 0 (some "1.2.3.4\n") = .ok ⟨true, "1.2.3.4"⟩ ∧
    (runPipeline { wGood with statusRaises := true } appCfg).result = .error (.exited 1) :=
  ⟨(minikube_bootstrap_policy false 1 "host: Running" 2 none).2.1 rfl (by decide) (by decide),
   (minikube_bootstrap_policy false 0 "Stopped" 0 (some "1.2.3.4\n")).2.2.1 rfl (by decide) rfl,
   (minikube_bootstrap_policy true 0 "" 0 none).2.2.2.2.2
     { wGood with statusRaises := true } rfl⟩

end Manager
